import Mathlib

/-!
Shallow embedding of the go-nobitex client (github.com/darhelm/go-nobitex):
the session lifecycle manager (`Authenticate`, `handleAutoRefresh`,
`assertAuth`, `NewClient`), the request pipeline (`Request`, `ApiRequest`,
`createApiURI`) and the error normalizer (`parseErrorResponse`), together
with the two endpoint methods `CancelOrder` and `GetOpenOrders`.

Modelling conventions:
- JSON documents are the inductive `Json`; a raw response body is an
  `Option Json` (`none` = bytes that are not valid JSON).  JSON numbers are
  modelled as integers; Go prints an integral float64 without a decimal
  point, matching `Int` formatting.
- The outside world (clock, TOTP generator, HTTP transport) is a `World` of
  oracles indexed by call counts; the mutable client together with the
  effect trace (dispatched wire requests, TOTP generations, decode
  attempts) is the state `St`, threaded explicitly.
- Go `time.Duration` values are modelled in seconds (`4*time.Hour` ↦
  `4*3600`, `30*24*time.Hour` ↦ `30*24*3600`); `time.Since(t)` is
  `now - t`.
- `http.NewRequest` construction and `io.ReadAll` are modelled as always
  succeeding; transport (`HttpClient.Do`) failures come from the world
  oracle.  The `Err` cause wrapped inside a `RequestError` is a Go stdlib
  error value and is abstracted away (only message and operation are kept).
-/

/-- A JSON value.  Numbers are restricted to integers (see header note). -/
inductive Json where
  | str (s : String)
  | num (n : Int)
  | bool (b : Bool)
  | null
  | arr (items : List Json)
  | obj (fields : List (String × Json))

/-- Insertion of a rendered map entry into a sorted list of rendered
entries; Go `fmt` prints map entries in sorted key order. -/
def insertSorted (x : String) : List String → List String
  | [] => [x]
  | y :: ys => if x ≤ y then x :: y :: ys else y :: insertSorted x ys

def sortStrings : List String → List String
  | [] => []
  | x :: xs => insertSorted x (sortStrings xs)

mutual

/-- Go `fmt.Sprintf` with verb v applied to a decoded JSON value
(`string`, `float64`, `bool`, `nil`, `[]any`, `map[string]any`). -/
def goFormat : Json → String
  | .str s => s
  | .num n => toString n
  | .bool b => if b then "true" else "false"
  | .null => "<nil>"
  | .arr xs => "[" ++ String.intercalate " " (goFormatList xs) ++ "]"
  | .obj kvs => "map[" ++ String.intercalate " " (sortStrings (goFormatEntries kvs)) ++ "]"

def goFormatList : List Json → List String
  | [] => []
  | x :: xs => goFormat x :: goFormatList xs

def goFormatEntries : List (String × Json) → List String
  | [] => []
  | kv :: rest => (kv.1 ++ ":" ++ goFormat kv.2) :: goFormatEntries rest

end

/-- Go `json.Unmarshal` of a body into a `string`-typed struct field with the
given json tag: present string values are taken, anything else (absent key,
non-string value, non-object body, invalid JSON) leaves the zero value. -/
def jLookupStr (b : Option Json) (k : String) : String :=
  match b with
  | some (.obj kvs) =>
    match kvs.lookup k with
    | some (.str s) => s
    | _ => ""
  | _ => ""

/-- types.ErrorResponse (src/types/error.go). -/
structure ErrorResponse where
  Status : String
  Code : String
  Message : String
  Detail : String

/-- Go `json.Unmarshal(respBody, &base)` for `base : t.ErrorResponse`; the Go
decoder fills every string-typed field whose key holds a string and leaves
the others at their zero value (the returned error is discarded). -/
def unmarshalErrorResponse (b : Option Json) : ErrorResponse :=
  { Status := jLookupStr b "status"
    Code := jLookupStr b "code"
    Message := jLookupStr b "message"
    Detail := jLookupStr b "detail" }

/-- The `Fields` map of an APIError (`map[string][]string`), modelled by
its lookup function. -/
def FieldsMap : Type := String → Option (List String)

def setF (f : FieldsMap) (k : String) (v : List String) : FieldsMap :=
  fun q => if q = k then some v else f q

/-- APIError (src/errors.go).  The embedded GoNobitexError.Message always
equals `Message` after `parseErrorResponse` and is not duplicated here. -/
structure APIError where
  Status : String
  Code : String
  Message : String
  Detail : String
  StatusCode : Nat
  Fields : FieldsMap

/-- The value stored in the `Fields` map for one top-level JSON value:
Go switch `case string` / `case []any` / `default`. -/
def fieldEntry : Json → List String
  | .str s => [s]
  | .arr xs => goFormatList xs
  | v => [goFormat v]

/-- Accumulator of the `for k, v := range raw` loop in
`parseErrorResponse`: fields map, message and detail so far. -/
structure RawAcc where
  fields : FieldsMap
  message : String
  detail : String

/-- One iteration of the raw-map loop of `parseErrorResponse`. -/
def rawStep (acc : RawAcc) (kv : String × Json) : RawAcc :=
  match kv.2 with
  | .str val =>
    let f := setF acc.fields kv.1 [val]
    if kv.1 = "detail" then
      { fields := f
        message := if acc.message = "" then val else acc.message
        detail := val }
    else
      { acc with fields := f }
  | .arr xs => { acc with fields := setF acc.fields kv.1 (goFormatList xs) }
  | v => { acc with fields := setF acc.fields kv.1 [goFormat v] }

/-- Function `parseErrorResponse` (src/errors.go, lines 53-108).  The Go loop ranges
over a `map[string]any` whose iteration order is irrelevant here (each key
is written independently and only `"detail"` touches message/detail); the
embedding iterates the parsed object in document order. -/
def parseErrorResponse (statusCode : Nat) (respBody : Option Json) : APIError :=
  let base := unmarshalErrorResponse respBody
  let fields0 : FieldsMap := fun _ => none
  let fields1 := if base.Code ≠ "" then setF fields0 "code" [base.Code] else fields0
  let fields2 := if base.Message ≠ "" then setF fields1 "message" [base.Message] else fields1
  let raw : List (String × Json) :=
    match respBody with
    | some (.obj kvs) => kvs
    | _ => []
  let acc := raw.foldl rawStep { fields := fields2, message := base.Message, detail := "" }
  let message :=
    if acc.message = "" then "API error (" ++ toString statusCode ++ ")" else acc.message
  { Status := base.Status
    Code := base.Code
    Message := message
    Detail := acc.detail
    StatusCode := statusCode
    Fields := acc.fields }

/-- Keys of the top-level object are distinct — the invariant of a body
that came out of Go `json.Unmarshal` into `map[string]any` (duplicate keys
collapse during parsing). -/
def wellFormedBody : Option Json → Prop
  | some (.obj kvs) => (kvs.map Prod.fst).Nodup
  | _ => True

instance : DecidablePred wellFormedBody := by
  intro b
  unfold wellFormedBody
  match b with
  | some (.obj kvs) => exact inferInstance
  | some (.str _) | some (.num _) | some (.bool _) | some .null | some (.arr _) =>
    exact inferInstance
  | none => exact inferInstance

example : (parseErrorResponse 400 (some (.obj []))).Message = "API error (400)" := by rfl
example :
    (parseErrorResponse 400 (some (.obj [("detail", .str "bad request")]))).Message
      = "bad request" := by rfl
example :
    (parseErrorResponse 400 (some (.obj
      [("status", .str "failed"), ("code", .str "X"), ("message", .str "Y")]))).Message
      = "Y" := by rfl
example : (parseErrorResponse 400 none).Message = "API error (400)" := by rfl
example :
    (parseErrorResponse 422 (some (.obj
      [("status", .str "failed"), ("extra", .arr [.str "a", .str "b"]),
       ("n", .num 5)]))).Fields "extra" = some ["a", "b"] := by rfl
example :
    (parseErrorResponse 422 (some (.obj
      [("status", .str "failed"), ("extra", .arr [.str "a", .str "b"]),
       ("n", .num 5)]))).Fields "n" = some ["5"] := by rfl

/-- Errors of the SDK (src/errors.go): `GoNobitexError` (message plus an
optional wrapped cause), `RequestError` (with an operation label; the
wrapped stdlib cause is abstracted away) and `APIError`. -/
inductive GoErr where
  | goError (message : String) (cause : Option GoErr)
  | requestError (message : String) (operation : String)
  | apiError (e : APIError)

/-- Client (README.md embedded client.go, lines 275-302).  The HttpClient
and Timeout fields carry no behaviour in this model (the transport is the
world oracle) and are omitted. -/
structure Client where
  BaseUrl : String
  Username : String
  Password : String
  OtpSecret : String
  OtpCode : String
  Remember : String
  UserAgent : String
  AuthTime : Int
  ApiKey : String
  AutoAuth : Bool
  AutoRefresh : Bool

/-- ClientOptions (client.go lines 243-271), without HttpClient/Timeout. -/
structure ClientOptions where
  BaseUrl : String
  Username : String
  Password : String
  OtpSecret : String
  OtpCode : String
  Remember : String
  UserAgent : String
  ApiKey : String
  AutoAuth : Bool
  AutoRefresh : Bool

/-- An HTTP response as seen after `io.ReadAll`: status code plus the raw
body (already classified as JSON or not). -/
structure HttpResponse where
  statusCode : Nat
  body : Option Json

/-- A header map, modelled by its lookup function (Go `http.Header` with
`Set`/`Get` semantics: `Set` overwrites the entry for its key). -/
def HeaderMap : Type := String → Option String

def setHeader (h : HeaderMap) (k v : String) : HeaderMap :=
  fun q => if q = k then some v else h q

def getHeader (h : HeaderMap) (k : String) : Option String := h k

/-- An outgoing wire request. -/
structure WireRequest where
  method : String
  url : String
  headers : HeaderMap
  body : Option Json

/-- The outside world: the clock, the TOTP generator outcome for the n-th
generation, and the transport outcome for the n-th dispatched request
(`Except.error` = `HttpClient.Do` failure). -/
structure World where
  now : Int
  otp : Nat → Except String String
  resp : Nat → Except String HttpResponse

/-- Mutable state threaded through the embedding: the client (a Go
pointer) plus the effect trace — dispatched wire requests in order, number
of TOTP generations, number of response-decode attempts. -/
structure St where
  c : Client
  otpCalls : Nat
  sent : List WireRequest
  decodes : Nat

/-- Function `utils.GenerateOtpCode` (src/utils/otp.go): consults the TOTP oracle
and advances the generation counter.  The oracle value is the final
`(code, err)` pair returned by the util. -/
def genOtp (w : World) (s : St) : Except String String × St :=
  (w.otp s.otpCalls, { s with otpCalls := s.otpCalls + 1 })

/-- Transport step `c.HttpClient.Do(req)` followed by `io.ReadAll`: records the request
in the trace and consults the transport oracle. -/
def doSend (w : World) (s : St) (req : WireRequest) : Except String HttpResponse × St :=
  (w.resp s.sent.length, { s with sent := s.sent ++ [req] })

/-- BaseUrl constant (client.go line 237). -/
def BaseUrl : String := "https://apiv2.nobitex.ir"

/-- createApiURI (client.go lines 481-487). -/
def createApiURI (baseUrl endpoint version : String) : String :=
  if version = "" then baseUrl ++ endpoint
  else baseUrl ++ "/" ++ version ++ endpoint

/-- assertAuth (client.go lines 438-446). -/
def assertAuth (c : Client) : Except GoErr Unit :=
  if c.ApiKey = "" then .error (.goError "access token is empty" none)
  else .ok ()

/-- Modelled from the spec: the source of `utils.StructToURLParams` is not
under src/ (only its caller in `Request` is).  Per the spec, a parameter
object is serialized to an ordered, deterministic set of query parameters;
the serialization is modelled as total on the JSON encodings used here. -/
def structToURLParams : Json → String
  | .obj kvs => String.intercalate "&" (kvs.map (fun kv => kv.1 ++ "=" ++ goFormat kv.2))
  | j => goFormat j

/-- Go `json.Unmarshal(respBody, result)` for a non-nil result destination:
fails on invalid JSON, otherwise applies the decoder of the destination type. -/
def decodeBody {α : Type} (b : Option Json) (d : Json → Option α) : Option α :=
  match b with
  | some j => d j
  | none => none

/-- Tail of `Request` from `c.HttpClient.Do` on (client.go lines 700-741):
dispatch, non-2xx normalization, optional decode. -/
def requestDispatch {α : Type} (w : World) (s : St) (req : WireRequest)
    (dec : Option (Json → Option α)) : Except GoErr (Option α) × St :=
  match doSend w s req with
  | (.error _, s1) => (.error (.requestError "failed to send request" "sending request"), s1)
  | (.ok resp, s1) =>
    if resp.statusCode < 200 ∨ 300 ≤ resp.statusCode then
      (.error (.apiError (parseErrorResponse resp.statusCode resp.body)), s1)
    else
      match dec with
      | none => (.ok none, s1)
      | some d =>
        let s2 := { s1 with decodes := s1.decodes + 1 }
        match decodeBody resp.body d with
        | some a => (.ok (some a), s2)
        | none => (.error (.requestError "failed to unmarshal response" "parsing response"), s2)

/-- Tail of `Request` from the `otpRequired` block on (client.go lines
688-698 then dispatch). -/
def requestFinish {α : Type} (w : World) (s : St) (req : WireRequest) (otpRequired : Bool)
    (dec : Option (Json → Option α)) : Except GoErr (Option α) × St :=
  if otpRequired then
    if s.c.UserAgent = "" then
      (.error (.goError "UserAgent is empty! please set UserAgent" none), s)
    else
      let h := setHeader (setHeader req.headers "User-Agent" ("TraderBot/" ++ s.c.UserAgent))
        "X-TOTP" s.c.OtpCode
      requestDispatch w s { req with headers := h } dec
  else
    requestDispatch w s req dec

/-- The first lines of `Request` (client.go lines 613-658): GET bodies
become query parameters, POST bodies are JSON-encoded, `http.NewRequest`
is built and `Content-Type: application/json` is always set. -/
def buildWireRequest (method url : String) (body : Option Json) : WireRequest :=
  { method := method
    url :=
      if method = "GET" then
        match body with
        | some b => url ++ "?" ++ structToURLParams b
        | none => url
      else url
    headers := setHeader (fun _ => none) "Content-Type" "application/json"
    body := if method = "POST" then body else none }

/-- Function `Request` (client.go lines 612-742), parametrized by the refresh
routine invoked in the `auth && AutoRefresh` branch (`handleAutoRefresh`
in the tied knot below; the parameter only breaks the
Request/Authenticate/handleAutoRefresh definition cycle and is never
consulted when `auth` is false). -/
def RequestWith {α : Type} (ensure : World → St → Except GoErr Unit × St)
    (w : World) (s : St) (method url : String) (auth otpRequired : Bool)
    (body : Option Json) (dec : Option (Json → Option α)) : Except GoErr (Option α) × St :=
  let req : WireRequest := buildWireRequest method url body
  if auth then
    match (if s.c.AutoRefresh then ensure w s else (.ok (), s)) with
    | (.error e, s1) =>
      (.error (.goError "failed to refresh authentication" (some e)), s1)
    | (.ok (), s1) =>
      match assertAuth s1.c with
      | .error e => (.error (.goError "authentication validation failed" (some e)), s1)
      | .ok () =>
        if s1.c.UserAgent = "" then
          (.error (.goError "UserAgent is empty! please set UserAgent" none), s1)
        else
          let h := setHeader
            (setHeader req.headers "User-Agent" ("TraderBot/" ++ s1.c.UserAgent))
            "Authorization" ("Token " ++ s1.c.ApiKey)
          requestFinish w s1 { req with headers := h } otpRequired dec
  else
    requestFinish w s req otpRequired dec

/-- AuthenticationResponse (src/types/auth.go). -/
structure AuthenticationResponse where
  Status : String
  Key : String
  Device : String

/-- Go `json.Unmarshal` into `t.AuthenticationResponse`: requires a JSON
object whose present `status`/`key`/`device` keys hold strings. -/
def jStrField (kvs : List (String × Json)) (k : String) : Option String :=
  match kvs.lookup k with
  | none => some ""
  | some (.str s) => some s
  | some _ => none

def decodeAuthResp : Json → Option AuthenticationResponse
  | .obj kvs =>
    match jStrField kvs "status", jStrField kvs "key", jStrField kvs "device" with
    | some st, some k, some d => some { Status := st, Key := k, Device := d }
    | _, _, _ => none
  | _ => none

/-- Function `Authenticate` (client.go lines 813-852).  The login request goes
through `Request` with `auth=false`, so the refresh parameter of
`RequestWith` is irrelevant and instantiated with a no-op. -/
def Authenticate (w : World) (s : St) (Username Password : String) :
    Except GoErr AuthenticationResponse × St :=
  if Username = "" ∨ Password = "" then
    (.error (.goError "Username and/or password are empty" none), s)
  else
    match RequestWith (fun _ s => (.ok (), s)) w s "POST"
        (createApiURI s.c.BaseUrl "/auth/login/" "") false true
        (some (.obj [("username", .str Username), ("password", .str Password),
          ("captcha", .str "api"), ("remember", .str s.c.Remember)]))
        (some decodeAuthResp) with
    | (.error e, s1) => (.error e, s1)
    | (.ok none, s1) =>
      -- unreachable: `Request` with a non-nil destination never returns
      -- `ok` without a decoded value; kept total with the zero struct.
      let s2 := { s1 with c := { s1.c with AuthTime := w.now, ApiKey := "" } }
      (.ok { Status := "", Key := "", Device := "" }, s2)
    | (.ok (some ar), s1) =>
      let s2 := { s1 with c := { s1.c with AuthTime := w.now, ApiKey := ar.Key } }
      (.ok ar, s2)

/-- The regenerate-and-reauthenticate body of `handleAutoRefresh`
(client.go lines 541-555): a new TOTP is generated from the secret and
stored (the Go code stores the returned code before checking the
generation error), then `Authenticate` is re-invoked and its failure is
wrapped. -/
def refreshFlow (w : World) (s : St) : Except GoErr Unit × St :=
  let (codeR, s1) := genOtp w s
  let code := match codeR with | .ok c => c | .error _ => ""
  let s2 := { s1 with c := { s1.c with OtpCode := code } }
  match codeR with
  | .error e =>
    (.error (.goError ("failed to generate Otp code: " ++ e) (some (.goError e none))), s2)
  | .ok _ =>
    match Authenticate w s2 s2.c.Username s2.c.Password with
    | (.error e, s3) =>
      (.error (.goError ("failed to refresh Api Key with Remember = \x27"
        ++ s3.c.Remember ++ "\x27") (some e)), s3)
    | (.ok _, s3) => (.ok (), s3)

/-- The `time.Since(c.AuthTime) > ttl` staleness check of
`handleAutoRefresh` (client.go line 540). -/
def handleAutoRefreshTtl (w : World) (s : St) (ttl : Int) : Except GoErr Unit × St :=
  if w.now - s.c.AuthTime > ttl then refreshFlow w s else (.ok (), s)

/-- handleAutoRefresh (client.go lines 520-559). -/
def handleAutoRefresh (w : World) (s : St) : Except GoErr Unit × St :=
  if s.c.OtpSecret = "" then
    (.error (.goError "Otp secret is empty, can\x27t refresh Api Key!" none), s)
  else if s.c.Remember = "no" ∨ s.c.Remember = "" then
    handleAutoRefreshTtl w s (4 * 3600)
  else if s.c.Remember = "yes" then
    handleAutoRefreshTtl w s (30 * 24 * 3600)
  else
    (.error (.goError ("unknown Remember value: " ++ s.c.Remember) none), s)

/-- Function `Request` with the refresh routine tied to `handleAutoRefresh`. -/
def Request {α : Type} (w : World) (s : St) (method url : String) (auth otpRequired : Bool)
    (body : Option Json) (dec : Option (Json → Option α)) : Except GoErr (Option α) × St :=
  RequestWith handleAutoRefresh w s method url auth otpRequired body dec

/-- ApiRequest (client.go lines 768-771). -/
def ApiRequest {α : Type} (w : World) (s : St) (method endpoint version : String)
    (auth otpRequired : Bool) (body : Option Json) (dec : Option (Json → Option α)) :
    Except GoErr (Option α) × St :=
  Request w s method (createApiURI s.c.BaseUrl endpoint version) auth otpRequired body dec

/-- The sequential field assignments at the top of `NewClient` (client.go
lines 361-384); fields not assigned stay at their Go zero value (note that
`opts.AutoAuth` is never copied to the client in the source). -/
def initClient (opts : ClientOptions) : Client :=
  { BaseUrl := if opts.BaseUrl ≠ "" then opts.BaseUrl else BaseUrl
    Username := opts.Username
    Password := opts.Password
    OtpSecret := ""
    OtpCode := ""
    Remember := opts.Remember
    UserAgent := if opts.UserAgent ≠ "" then opts.UserAgent else ""
    AuthTime := 0
    ApiKey := ""
    AutoAuth := false
    AutoRefresh := opts.AutoRefresh }

/-- Tail of `NewClient` (client.go lines 407-413): stamp `AuthTime` with
the current time, then run `handleAutoRefresh` unconditionally. -/
def newClientFinish (w : World) (s : St) : Except GoErr Client × St :=
  match handleAutoRefresh w { s with c := { s.c with AuthTime := w.now } } with
  | (.error e, s2) => (.error e, s2)
  | (.ok (), s2) => (.ok s2.c, s2)

/-- NewClient (client.go lines 360-414). -/
def NewClient (w : World) (opts : ClientOptions) : Except GoErr Client × St :=
  let s0 : St := { c := initClient opts, otpCalls := 0, sent := [], decodes := 0 }
  if opts.ApiKey = "" ∧ opts.Username ≠ "" ∧ opts.Password ≠ ""
      ∧ (opts.OtpCode ≠ "" ∨ opts.OtpSecret ≠ "") then
    let step : Except GoErr Unit × St :=
      if opts.OtpSecret ≠ "" then
        let s1 := { s0 with c := { s0.c with OtpSecret := opts.OtpSecret } }
        match genOtp w s1 with
        | (.error e, s2) => (.error (.goError e none), s2)
        | (.ok code, s2) => (.ok (), { s2 with c := { s2.c with OtpCode := code } })
      else (.ok (), s0)
    match step with
    | (.error e, s1) => (.error e, s1)
    | (.ok (), s1) =>
      let s2 := if opts.OtpCode ≠ "" then { s1 with c := { s1.c with OtpCode := opts.OtpCode } }
        else s1
      match Authenticate w s2 opts.Username opts.Password with
      | (.error e, s3) => (.error e, s3)
      | (.ok _, s3) => newClientFinish w s3
  else
    newClientFinish w { s0 with c := { s0.c with ApiKey := opts.ApiKey } }

/-- CancelOrderParams (src/types/cancel.go). -/
structure CancelOrderParams where
  Id : Int
  ClientOrderId : String
  Status : String

/-- Go `json.Marshal` of CancelOrderParams per its json tags
(`id,omitempty`, `clientOrderId,omitempty`, `status`). -/
def encodeCancelOrderParams (p : CancelOrderParams) : Json :=
  .obj ((if p.Id ≠ 0 then [("id", Json.num p.Id)] else [])
    ++ (if p.ClientOrderId ≠ "" then [("clientOrderId", Json.str p.ClientOrderId)] else [])
    ++ [("status", Json.str p.Status)])

/-- GetOrdersListParams (src/types/auth.go sibling, part_001): every field
is tagged without `omitempty`, so all are serialized. -/
structure GetOrdersListParams where
  Status : String
  «Type» : String
  Execution : String
  TradeType : String
  SrcCurrency : String
  DstCurrency : String
  Details : Int
  FromId : Int
  Order : String

def encodeGetOrdersListParams (p : GetOrdersListParams) : Json :=
  .obj [("status", .str p.Status), ("type", .str p.«Type»), ("execution", .str p.Execution),
    ("tradeType", .str p.TradeType), ("srcCurrency", .str p.SrcCurrency),
    ("dstCurrency", .str p.DstCurrency), ("details", .num p.Details),
    ("fromId", .num p.FromId), ("order", .str p.Order)]

/-- The JSON response decoders of the two endpoint methods are irrelevant
to the verified properties (only the outgoing request matters); the
response body is passed through undecoded. -/
def decodeRaw : Json → Option Json := fun j => some j

/-- CancelOrder (client.go lines 1105-1114). -/
def CancelOrder (w : World) (s : St) (params : CancelOrderParams) :
    Except GoErr (Option Json) × St :=
  let params := { params with Status := "canceled" }
  ApiRequest w s "POST" "/market/orders/update-status" "" true false
    (some (encodeCancelOrderParams params)) (some decodeRaw)

/-- GetOpenOrders (client.go lines 1211-1219). -/
def GetOpenOrders (w : World) (s : St) (params : GetOrdersListParams) :
    Except GoErr (Option Json) × St :=
  let params := { params with Status := "open" }
  ApiRequest w s "GET" "/market/orders/list" "" true false
    (some (encodeGetOrdersListParams params)) (some decodeRaw)

/-! ### Lemmas about the raw-map loop of `parseErrorResponse` -/

theorem ite_empty_self (m : String) : (if m = "" then "" else m) = m := by
  split <;> simp_all

theorem rawStep_message_other (acc : RawAcc) (kv : String × Json) (h : kv.1 ≠ "detail") :
    (rawStep acc kv).message = acc.message := by
  obtain ⟨k, v⟩ := kv
  cases v <;> simp [rawStep, h]

theorem rawFold_message_no_detail (kvs : List (String × Json)) (acc : RawAcc)
    (h : "detail" ∉ kvs.map Prod.fst) :
    (kvs.foldl rawStep acc).message = acc.message := by
  induction kvs generalizing acc with
  | nil => rfl
  | cons kv rest ih =>
    simp only [List.map_cons, List.mem_cons] at h
    push_neg at h
    obtain ⟨h1, h2⟩ := h
    simp only [List.foldl_cons]
    rw [ih _ h2, rawStep_message_other _ _ (fun hk => h1 hk.symm)]

theorem rawFold_message (kvs : List (String × Json)) (acc : RawAcc)
    (h : (kvs.map Prod.fst).Nodup) :
    (kvs.foldl rawStep acc).message =
      if acc.message = "" then jLookupStr (some (.obj kvs)) "detail" else acc.message := by
  induction kvs generalizing acc with
  | nil => simp [jLookupStr, ite_empty_self]
  | cons kv rest ih =>
    obtain ⟨k, v⟩ := kv
    simp only [List.map_cons, List.nodup_cons] at h
    obtain ⟨hnotin, hnd⟩ := h
    by_cases hk : k = "detail"
    · subst hk
      simp only [List.foldl_cons]
      rw [rawFold_message_no_detail _ _ hnotin]
      cases v with
      | str val => simp [rawStep, jLookupStr, List.lookup]
      | num n => simp [rawStep, jLookupStr, List.lookup, ite_empty_self]
      | bool b => simp [rawStep, jLookupStr, List.lookup, ite_empty_self]
      | null => simp [rawStep, jLookupStr, List.lookup, ite_empty_self]
      | arr xs => simp [rawStep, jLookupStr, List.lookup, ite_empty_self]
      | obj fs => simp [rawStep, jLookupStr, List.lookup, ite_empty_self]
    · simp only [List.foldl_cons]
      rw [ih _ hnd, rawStep_message_other _ _ hk]
      have hbeq : ("detail" == k) = false := beq_eq_false_iff_ne.mpr (fun hx => hk hx.symm)
      simp only [jLookupStr, List.lookup, hbeq]

theorem rawStep_fields_self (acc : RawAcc) (k : String) (v : Json) :
    (rawStep acc (k, v)).fields k = some (fieldEntry v) := by
  cases v with
  | str s => by_cases hk : k = "detail" <;> simp [rawStep, fieldEntry, setF, hk]
  | num n => simp [rawStep, fieldEntry, setF]
  | bool b => simp [rawStep, fieldEntry, setF]
  | null => simp [rawStep, fieldEntry, setF]
  | arr xs => simp [rawStep, fieldEntry, setF]
  | obj fs => simp [rawStep, fieldEntry, setF]

theorem rawStep_fields_other (acc : RawAcc) (kv : String × Json) (q : String) (h : q ≠ kv.1) :
    (rawStep acc kv).fields q = acc.fields q := by
  obtain ⟨k, v⟩ := kv
  simp only at h
  cases v with
  | str s =>
    by_cases hk : k = "detail"
    · subst hk
      simp [rawStep, setF, h]
    · simp [rawStep, setF, h, hk]
  | num n => simp [rawStep, setF, h]
  | bool b => simp [rawStep, setF, h]
  | null => simp [rawStep, setF, h]
  | arr xs => simp [rawStep, setF, h]
  | obj fs => simp [rawStep, setF, h]

theorem rawFold_fields_not_mem (kvs : List (String × Json)) (acc : RawAcc) (q : String)
    (h : q ∉ kvs.map Prod.fst) :
    (kvs.foldl rawStep acc).fields q = acc.fields q := by
  induction kvs generalizing acc with
  | nil => rfl
  | cons kv rest ih =>
    simp only [List.map_cons, List.mem_cons] at h
    push_neg at h
    obtain ⟨h1, h2⟩ := h
    simp only [List.foldl_cons]
    rw [ih _ h2, rawStep_fields_other _ _ _ h1]

theorem rawFold_fields (kvs : List (String × Json)) (acc : RawAcc) (k : String) (v : Json)
    (hnd : (kvs.map Prod.fst).Nodup) (hmem : (k, v) ∈ kvs) :
    (kvs.foldl rawStep acc).fields k = some (fieldEntry v) := by
  induction kvs generalizing acc with
  | nil => cases hmem
  | cons kv rest ih =>
    simp only [List.map_cons, List.nodup_cons] at hnd
    obtain ⟨hnotin, hnd⟩ := hnd
    rcases List.mem_cons.mp hmem with heq | hmem2
    · subst heq
      simp only [List.foldl_cons]
      rw [rawFold_fields_not_mem _ _ _ hnotin, rawStep_fields_self]
    · simp only [List.foldl_cons]
      exact ih _ hnd hmem2

theorem apiErrorSynth_ne (sc : Nat) : "API error (" ++ toString sc ++ ")" ≠ "" := by
  intro h
  have h2 := congrArg String.length h
  simp [String.length_append] at h2
  exact absurd h2.2 (by decide)

/-- The final `Message` of `parseErrorResponse`, characterized: the
`message` field when it holds a non-empty string, else a string-valued
`detail`, else the synthesized fallback. -/
theorem parseErrorResponse_message (sc : Nat) (body : Option Json) (h : wellFormedBody body) :
    (parseErrorResponse sc body).Message =
      (if jLookupStr body "message" ≠ "" then jLookupStr body "message"
       else if jLookupStr body "detail" ≠ "" then jLookupStr body "detail"
       else "API error (" ++ toString sc ++ ")") := by
  match body with
  | some (.obj kvs) =>
    have hnd : (kvs.map Prod.fst).Nodup := h
    show (parseErrorResponse sc (some (.obj kvs))).Message = _
    unfold parseErrorResponse
    simp only [unmarshalErrorResponse]
    rw [rawFold_message kvs _ hnd]
    by_cases hm : jLookupStr (some (.obj kvs)) "message" = ""
    · by_cases hd : jLookupStr (some (.obj kvs)) "detail" = "" <;> simp [hm, hd]
    · simp [hm]
  | some (.str s) => rfl
  | some (.num n) => rfl
  | some (.bool b) => rfl
  | some .null => rfl
  | some (.arr xs) => rfl
  | none => rfl

theorem parseErrorResponse_message_ne (sc : Nat) (body : Option Json) (h : wellFormedBody body) :
    (parseErrorResponse sc body).Message ≠ "" := by
  rw [parseErrorResponse_message sc body h]
  split
  · assumption
  · split
    · assumption
    · exact apiErrorSynth_ne sc

/-- C4: `parseErrorResponse` is total and always yields a non-empty
`Message`: taken from a string-valued non-empty `message` key, else
promoted from a string-valued `detail` key, else synthesized as
`API error (<statusCode>)`; in particular, at status 400, the empty
object, a detail-only object carrying `bad request`, a full
status/code/message object carrying message `Y`, and non-JSON bytes
yield the synthesized string, `bad request`, `Y` and the synthesized
string respectively. -/
theorem parseErrorResponse_total (sc : Nat) (body : Option Json) (h : wellFormedBody body) :
    ((parseErrorResponse sc body).Message ≠ ""
      ∧ (parseErrorResponse sc body).Message =
        (if jLookupStr body "message" ≠ "" then jLookupStr body "message"
         else if jLookupStr body "detail" ≠ "" then jLookupStr body "detail"
         else "API error (" ++ toString sc ++ ")"))
    ∧ (parseErrorResponse 400 (some (.obj []))).Message = "API error (400)"
    ∧ (parseErrorResponse 400 (some (.obj [("detail", .str "bad request")]))).Message
        = "bad request"
    ∧ (parseErrorResponse 400 (some (.obj
        [("status", .str "failed"), ("code", .str "X"), ("message", .str "Y")]))).Message = "Y"
    ∧ (parseErrorResponse 400 none).Message = "API error (400)" :=
  ⟨⟨parseErrorResponse_message_ne sc body h, parseErrorResponse_message sc body h⟩,
    rfl, rfl, rfl, rfl⟩

theorem parseErrorResponse_total_witness :
    (parseErrorResponse 502 (some (.obj [("detail", Json.str "bad request")]))).Message ≠ "" :=
  (parseErrorResponse_total 502 (some (.obj [("detail", Json.str "bad request")]))
    (by decide)).1.1

/-- C5: for every JSON-object error body with (parser-guaranteed) distinct
top-level keys, the `Fields` map contains an entry for every key — a
string as a kept-as-is singleton, an array element-wise converted, and any
other JSON kind as a singleton generic textual form — regardless of
whether the strict parse already consumed the key. -/
theorem parseErrorResponse_fields_complete (sc : Nat) (kvs : List (String × Json))
    (h : (kvs.map Prod.fst).Nodup) (k : String) (v : Json) (hmem : (k, v) ∈ kvs) :
    (parseErrorResponse sc (some (.obj kvs))).Fields k = some (fieldEntry v) := by
  unfold parseErrorResponse
  exact rawFold_fields kvs _ k v h hmem

theorem parseErrorResponse_fields_complete_witness :
    (parseErrorResponse 422 (some (.obj [("status", .str "failed"),
        ("extra", .arr [.str "a", .str "b"]), ("n", .num 5)]))).Fields "status"
        = some ["failed"]
    ∧ (parseErrorResponse 422 (some (.obj [("status", .str "failed"),
        ("extra", .arr [.str "a", .str "b"]), ("n", .num 5)]))).Fields "extra"
        = some ["a", "b"]
    ∧ (parseErrorResponse 422 (some (.obj [("status", .str "failed"),
        ("extra", .arr [.str "a", .str "b"]), ("n", .num 5)]))).Fields "n"
        = some ["5"] :=
  ⟨parseErrorResponse_fields_complete 422 _ (by simp) "status" (.str "failed")
      (List.mem_cons_self _ _),
    parseErrorResponse_fields_complete 422 _ (by simp) "extra" (.arr [.str "a", .str "b"])
      (List.mem_cons_of_mem _ (List.mem_cons_self _ _)),
    parseErrorResponse_fields_complete 422 _ (by simp) "n" (.num 5)
      (List.mem_cons_of_mem _ (List.mem_cons_of_mem _ (List.mem_cons_self _ _)))⟩

/-! ### State-shape lemmas for the request pipeline -/

theorem requestDispatch_c {α : Type} (w : World) (s : St) (req : WireRequest)
    (dec : Option (Json → Option α)) : (requestDispatch w s req dec).2.c = s.c := by
  unfold requestDispatch doSend
  rcases w.resp s.sent.length with e | resp
  · rfl
  · simp only
    split
    · rfl
    · rcases dec with _ | d
      · rfl
      · simp only
        rcases decodeBody resp.body d with _ | a <;> rfl

theorem requestDispatch_otpCalls {α : Type} (w : World) (s : St) (req : WireRequest)
    (dec : Option (Json → Option α)) : (requestDispatch w s req dec).2.otpCalls = s.otpCalls := by
  unfold requestDispatch doSend
  rcases w.resp s.sent.length with e | resp
  · rfl
  · simp only
    split
    · rfl
    · rcases dec with _ | d
      · rfl
      · simp only
        rcases decodeBody resp.body d with _ | a <;> rfl

theorem requestFinish_c {α : Type} (w : World) (s : St) (req : WireRequest) (otpRequired : Bool)
    (dec : Option (Json → Option α)) : (requestFinish w s req otpRequired dec).2.c = s.c := by
  unfold requestFinish
  by_cases hu : s.c.UserAgent = "" <;> rcases otpRequired with _ | _ <;>
    simp [hu, requestDispatch_c]

theorem requestFinish_otpCalls {α : Type} (w : World) (s : St) (req : WireRequest)
    (otpRequired : Bool) (dec : Option (Json → Option α)) :
    (requestFinish w s req otpRequired dec).2.otpCalls = s.otpCalls := by
  unfold requestFinish
  by_cases hu : s.c.UserAgent = "" <;> rcases otpRequired with _ | _ <;>
    simp [hu, requestDispatch_otpCalls]

theorem RequestWith_false_c {α : Type} (ens : World → St → Except GoErr Unit × St)
    (w : World) (s : St) (method url : String) (otpRequired : Bool) (body : Option Json)
    (dec : Option (Json → Option α)) :
    (RequestWith ens w s method url false otpRequired body dec).2.c = s.c := by
  unfold RequestWith
  exact requestFinish_c w s _ otpRequired dec

theorem RequestWith_false_otpCalls {α : Type} (ens : World → St → Except GoErr Unit × St)
    (w : World) (s : St) (method url : String) (otpRequired : Bool) (body : Option Json)
    (dec : Option (Json → Option α)) :
    (RequestWith ens w s method url false otpRequired body dec).2.otpCalls = s.otpCalls := by
  unfold RequestWith
  exact requestFinish_otpCalls w s _ otpRequired dec

theorem RequestWith_false_ua_empty {α : Type} (ens : World → St → Except GoErr Unit × St)
    (w : World) (s : St) (method url : String) (body : Option Json)
    (dec : Option (Json → Option α)) (h : s.c.UserAgent = "") :
    RequestWith ens w s method url false true body dec
      = (.error (.goError "UserAgent is empty! please set UserAgent" none), s) := by
  unfold RequestWith requestFinish
  simp [h]

/-! ### Lemmas about `Authenticate` and `handleAutoRefresh` -/

theorem Authenticate_preserves (w : World) (s : St) (u p : String) :
    (Authenticate w s u p).2.c.OtpSecret = s.c.OtpSecret
    ∧ (Authenticate w s u p).2.c.UserAgent = s.c.UserAgent
    ∧ (Authenticate w s u p).2.c.Remember = s.c.Remember
    ∧ (Authenticate w s u p).2.c.OtpCode = s.c.OtpCode
    ∧ (Authenticate w s u p).2.c.BaseUrl = s.c.BaseUrl
    ∧ (Authenticate w s u p).2.otpCalls = s.otpCalls := by
  unfold Authenticate
  by_cases hc : u = "" ∨ p = ""
  · simp [hc]
  · rw [if_neg hc]
    have hc2 := RequestWith_false_c (α := AuthenticationResponse) (fun _ s => (.ok (), s)) w s
      "POST" (createApiURI s.c.BaseUrl "/auth/login/" "") true
      (some (.obj [("username", .str u), ("password", .str p),
        ("captcha", .str "api"), ("remember", .str s.c.Remember)])) (some decodeAuthResp)
    have ho2 := RequestWith_false_otpCalls (α := AuthenticationResponse) (fun _ s => (.ok (), s))
      w s "POST" (createApiURI s.c.BaseUrl "/auth/login/" "") true
      (some (.obj [("username", .str u), ("password", .str p),
        ("captcha", .str "api"), ("remember", .str s.c.Remember)])) (some decodeAuthResp)
    split
    next r s1 e heq =>
      rw [heq] at hc2 ho2
      simp_all
    next r s1 heq =>
      rw [heq] at hc2 ho2
      simp_all
    next r s1 ar heq =>
      rw [heq] at hc2 ho2
      simp_all

theorem Authenticate_ua_empty (w : World) (s : St) (u p : String) (h : s.c.UserAgent = "") :
    ∃ e, Authenticate w s u p = (.error e, s) := by
  unfold Authenticate
  by_cases hc : u = "" ∨ p = ""
  · exact ⟨_, by rw [if_pos hc]⟩
  · rw [if_neg hc]
    rw [RequestWith_false_ua_empty _ w s _ _ _ _ h]
    exact ⟨_, rfl⟩

theorem refreshFlow_otpCalls (w : World) (s : St) :
    (refreshFlow w s).2.otpCalls = s.otpCalls + 1 := by
  unfold refreshFlow genOtp
  rcases w.otp s.otpCalls with e | code
  · rfl
  · simp only
    have := (Authenticate_preserves w
      { s with otpCalls := s.otpCalls + 1,
               c := { s.c with OtpCode := code } } s.c.Username s.c.Password).2.2.2.2.2
    split
    next r s3 e heq => rw [heq] at this; simp_all
    next r s3 ar heq => rw [heq] at this; simp_all

/-! ### Concrete fixtures used by witnesses and counterexamples -/

def loginOkResponse : HttpResponse :=
  { statusCode := 200
    body := some (.obj [("status", .str "ok"), ("key", .str "KEY2"), ("device", .str "dev")]) }

def wOk : World :=
  { now := 1000000
    otp := fun _ => .ok "654321"
    resp := fun _ => .ok loginOkResponse }

def cBase : Client :=
  { BaseUrl := BaseUrl, Username := "u", Password := "p", OtpSecret := "SECRET",
    OtpCode := "123456", Remember := "no", UserAgent := "Bot/1.0",
    AuthTime := 999900, ApiKey := "KEY1", AutoAuth := false, AutoRefresh := true }

def sBase : St := { c := cBase, otpCalls := 0, sent := [], decodes := 0 }

def sNoSecretFresh : St :=
  { c := { cBase with OtpSecret := "", AuthTime := 1000000 }, otpCalls := 0, sent := [],
    decodes := 0 }

def sNoSecretStale : St :=
  { c := { cBase with OtpSecret := "", AuthTime := 0 }, otpCalls := 0, sent := [], decodes := 0 }

/-! ### C8: Authenticate with empty credentials -/

/-- C8: for every pair of inputs where the username or the password is
empty, `Authenticate` returns an error immediately, with the state — in
particular `ApiKey`, `AuthTime` and the network trace — unchanged. -/
theorem Authenticate_empty_credentials (w : World) (s : St) (u p : String)
    (h : u = "" ∨ p = "") :
    Authenticate w s u p = (.error (.goError "Username and/or password are empty" none), s) := by
  unfold Authenticate
  rw [if_pos h]

theorem Authenticate_empty_credentials_witness :
    Authenticate wOk sBase "" "p"
      = (.error (.goError "Username and/or password are empty" none), sBase) :=
  Authenticate_empty_credentials wOk sBase "" "p" (Or.inl rfl)

/-! ### C1: the TTL policy of handleAutoRefresh -/

/-- C1 (amended: provided the TOTP secret is configured — with an empty
`OtpSecret` the function fails before the TTL check, see the
counterexample): `handleAutoRefresh` maps remember mode `no` or the empty
string to a TTL of 4 hours and `yes` to 30 days, triggers one-time-code
regeneration and re-authentication iff the elapsed time since `AuthTime`
exceeds that TTL, and fails with a configuration error, performing no
network call, on every other remember value. -/
theorem handleAutoRefresh_ttl_policy (w : World) (s : St) (hsec : s.c.OtpSecret ≠ "") :
    ((s.c.Remember = "no" ∨ s.c.Remember = "") →
      (w.now - s.c.AuthTime ≤ 4 * 3600 → handleAutoRefresh w s = (.ok (), s))
      ∧ (w.now - s.c.AuthTime > 4 * 3600 →
          handleAutoRefresh w s = refreshFlow w s
          ∧ (handleAutoRefresh w s).2.otpCalls = s.otpCalls + 1))
    ∧ (s.c.Remember = "yes" →
      (w.now - s.c.AuthTime ≤ 30 * 24 * 3600 → handleAutoRefresh w s = (.ok (), s))
      ∧ (w.now - s.c.AuthTime > 30 * 24 * 3600 →
          handleAutoRefresh w s = refreshFlow w s
          ∧ (handleAutoRefresh w s).2.otpCalls = s.otpCalls + 1))
    ∧ (s.c.Remember ≠ "no" → s.c.Remember ≠ "" → s.c.Remember ≠ "yes" →
        handleAutoRefresh w s
          = (.error (.goError ("unknown Remember value: " ++ s.c.Remember) none), s)) := by
  refine ⟨?_, ?_, ?_⟩
  · intro hrem
    refine ⟨?_, ?_⟩
    · intro hfresh
      unfold handleAutoRefresh handleAutoRefreshTtl
      rw [if_neg hsec, if_pos hrem, if_neg (not_lt.mpr hfresh)]
    · intro hstale
      have heq : handleAutoRefresh w s = refreshFlow w s := by
        unfold handleAutoRefresh handleAutoRefreshTtl
        rw [if_neg hsec, if_pos hrem, if_pos hstale]
      exact ⟨heq, by rw [heq]; exact refreshFlow_otpCalls w s⟩
  · intro hrem
    have hnotno : ¬(s.c.Remember = "no" ∨ s.c.Remember = "") := by
      rw [hrem]; simp
    refine ⟨?_, ?_⟩
    · intro hfresh
      unfold handleAutoRefresh handleAutoRefreshTtl
      rw [if_neg hsec, if_neg hnotno, if_pos hrem, if_neg (not_lt.mpr hfresh)]
    · intro hstale
      have heq : handleAutoRefresh w s = refreshFlow w s := by
        unfold handleAutoRefresh handleAutoRefreshTtl
        rw [if_neg hsec, if_neg hnotno, if_pos hrem, if_pos hstale]
      exact ⟨heq, by rw [heq]; exact refreshFlow_otpCalls w s⟩
  · intro h1 h2 h3
    unfold handleAutoRefresh
    rw [if_neg hsec, if_neg (by simp [h1, h2]), if_neg h3]

theorem handleAutoRefresh_ttl_policy_witness :
    handleAutoRefresh wOk sBase = (.ok (), sBase) :=
  ((handleAutoRefresh_ttl_policy wOk sBase (by decide)).1 (Or.inl rfl)).1 (by decide)

/-- C1 counterexample to the claim as stated: with an empty `OtpSecret`
and remember mode `no`, the elapsed time exceeds the 4-hour TTL, yet
`handleAutoRefresh` performs no one-time-code regeneration and no
re-authentication — it fails on the unconditional secret check instead. -/
theorem handleAutoRefresh_ttl_policy_cex :
    wOk.now - sNoSecretStale.c.AuthTime > 4 * 3600
    ∧ (handleAutoRefresh wOk sNoSecretStale).2.otpCalls = sNoSecretStale.otpCalls
    ∧ handleAutoRefresh wOk sNoSecretStale
        = (.error (.goError "Otp secret is empty, can\x27t refresh Api Key!" none),
           sNoSecretStale) :=
  ⟨by decide, rfl, rfl⟩

/-! ### C2: freshness is a no-op; missing secret -/

/-- C2 (amended: the missing-secret configuration error is raised
unconditionally, not only when the TTL has expired — see the
counterexample): for every client with a configured TOTP secret whose
elapsed time does not exceed the TTL of its remember mode,
`handleAutoRefresh` succeeds and leaves the whole state — session fields
`ApiKey`, `AuthTime`, `OtpCode` and the network trace — unchanged; with an
empty secret it fails with the configuration error regardless of
elapsed time. -/
theorem handleAutoRefresh_fresh_noop (w : World) (s : St) :
    (s.c.OtpSecret ≠ "" →
      ((s.c.Remember = "no" ∨ s.c.Remember = "") → w.now - s.c.AuthTime ≤ 4 * 3600 →
        handleAutoRefresh w s = (.ok (), s))
      ∧ (s.c.Remember = "yes" → w.now - s.c.AuthTime ≤ 30 * 24 * 3600 →
        handleAutoRefresh w s = (.ok (), s)))
    ∧ (s.c.OtpSecret = "" →
        handleAutoRefresh w s
          = (.error (.goError "Otp secret is empty, can\x27t refresh Api Key!" none), s)) := by
  constructor
  · intro hsec
    constructor
    · intro hrem hfresh
      unfold handleAutoRefresh handleAutoRefreshTtl
      rw [if_neg hsec, if_pos hrem, if_neg (not_lt.mpr hfresh)]
    · intro hrem hfresh
      have hnotno : ¬(s.c.Remember = "no" ∨ s.c.Remember = "") := by
        rw [hrem]; simp
      unfold handleAutoRefresh handleAutoRefreshTtl
      rw [if_neg hsec, if_neg hnotno, if_pos hrem, if_neg (not_lt.mpr hfresh)]
  · intro hsec
    unfold handleAutoRefresh
    rw [if_pos hsec]

theorem handleAutoRefresh_fresh_noop_witness :
    handleAutoRefresh wOk { sBase with c := { cBase with Remember := "yes" } }
      = (.ok (), { sBase with c := { cBase with Remember := "yes" } }) :=
  ((handleAutoRefresh_fresh_noop wOk _).1 (by decide)).2 rfl (by decide)

/-- C2 counterexample to the claim as stated: a client whose elapsed time
(zero) does not exceed the 4-hour TTL of remember mode `no` but whose
shared secret is missing: `handleAutoRefresh` fails with the
configuration error instead of succeeding, so the missing secret is
rejected even though the TTL has not expired. -/
theorem handleAutoRefresh_fresh_noop_cex :
    wOk.now - sNoSecretFresh.c.AuthTime ≤ 4 * 3600
    ∧ handleAutoRefresh wOk sNoSecretFresh
        = (.error (.goError "Otp secret is empty, can\x27t refresh Api Key!" none),
           sNoSecretFresh) :=
  ⟨by decide, rfl⟩

/-! ### C3: NewClient with an empty OtpSecret -/

/-- The condition under which `NewClient` performs an initial login
(client.go line 386). -/
def loginAttempted (opts : ClientOptions) : Prop :=
  opts.ApiKey = "" ∧ opts.Username ≠ "" ∧ opts.Password ≠ ""
    ∧ (opts.OtpCode ≠ "" ∨ opts.OtpSecret ≠ "")

instance (opts : ClientOptions) : Decidable (loginAttempted opts) := by
  unfold loginAttempted
  infer_instance

theorem newClientFinish_no_secret (w : World) (s : St) (hsec : s.c.OtpSecret = "") :
    newClientFinish w s
      = (.error (.goError "Otp secret is empty, can\x27t refresh Api Key!" none),
         { s with c := { s.c with AuthTime := w.now } }) := by
  unfold newClientFinish handleAutoRefresh
  rw [if_pos (show ({ s with c := { s.c with AuthTime := w.now } } : St).c.OtpSecret = ""
    from hsec)]

/-- C3 (amended: when the conditions for an initial login hold — empty
`ApiKey`, credentials and a one-time code present — and that login fails,
`NewClient` returns the login failure instead of the Otp-secret message;
in every case it returns an error and no client): for every
`ClientOptions` whose `OtpSecret` is empty, `NewClient` returns an error
and never a client, because `handleAutoRefresh` runs at construction on a
client with no secret; whenever no initial login is attempted (in
particular with a pre-issued `ApiKey` or a pre-supplied one-time code
without credentials), the error is exactly
`Otp secret is empty, can\x27t refresh Api Key!`. -/
theorem NewClient_empty_otpSecret (w : World) (opts : ClientOptions)
    (h : opts.OtpSecret = "") :
    (∃ e, (NewClient w opts).1 = .error e
      ∧ (e = .goError "Otp secret is empty, can\x27t refresh Api Key!" none
         ∨ loginAttempted opts))
    ∧ (¬ loginAttempted opts →
        (NewClient w opts).1
          = .error (.goError "Otp secret is empty, can\x27t refresh Api Key!" none)) := by
  unfold NewClient
  by_cases hb : opts.ApiKey = "" ∧ opts.Username ≠ "" ∧ opts.Password ≠ ""
      ∧ (opts.OtpCode ≠ "" ∨ opts.OtpSecret ≠ "")
  · rw [if_pos hb]
    have hsecn : ¬opts.OtpSecret ≠ "" := by simp [h]
    rw [if_neg hsecn]
    simp only
    by_cases hoc : opts.OtpCode ≠ ""
    · rw [if_pos hoc]
      rcases hA : Authenticate w
          { c := { initClient opts with OtpCode := opts.OtpCode }, otpCalls := 0, sent := [],
            decodes := 0 } opts.Username opts.Password with ⟨r, s3⟩
      have hps := (Authenticate_preserves w
        { c := { initClient opts with OtpCode := opts.OtpCode }, otpCalls := 0, sent := [],
          decodes := 0 } opts.Username opts.Password).1
      rw [hA] at hps
      cases r with
      | error e =>
        exact ⟨⟨e, rfl, Or.inr hb⟩, fun hn => absurd hb hn⟩
      | ok ar =>
        have hr := newClientFinish_no_secret w s3 (hps.trans rfl)
        constructor
        · refine ⟨_, ?_, Or.inl rfl⟩
          show (newClientFinish w s3).1 = _
          rw [hr]
        · intro hn
          show (newClientFinish w s3).1 = _
          rw [hr]
    · rw [if_neg hoc]
      rcases hA : Authenticate w
          { c := initClient opts, otpCalls := 0, sent := [], decodes := 0 }
          opts.Username opts.Password with ⟨r, s3⟩
      have hps := (Authenticate_preserves w
        { c := initClient opts, otpCalls := 0, sent := [], decodes := 0 }
        opts.Username opts.Password).1
      rw [hA] at hps
      cases r with
      | error e =>
        exact ⟨⟨e, rfl, Or.inr hb⟩, fun hn => absurd hb hn⟩
      | ok ar =>
        have hr := newClientFinish_no_secret w s3 (hps.trans rfl)
        constructor
        · refine ⟨_, ?_, Or.inl rfl⟩
          show (newClientFinish w s3).1 = _
          rw [hr]
        · intro hn
          show (newClientFinish w s3).1 = _
          rw [hr]
  · rw [if_neg hb]
    rw [newClientFinish_no_secret w _ (show (initClient opts).OtpSecret = "" from rfl)]
    exact ⟨⟨_, rfl, Or.inl rfl⟩, fun _ => rfl⟩

def optsPreKey : ClientOptions :=
  { BaseUrl := "", Username := "u", Password := "p", OtpSecret := "",
    OtpCode := "123456", Remember := "yes", UserAgent := "B", ApiKey := "PREKEY",
    AutoAuth := false, AutoRefresh := false }

theorem NewClient_empty_otpSecret_witness :
    (NewClient wOk optsPreKey).1
      = .error (.goError "Otp secret is empty, can\x27t refresh Api Key!" none) :=
  (NewClient_empty_otpSecret wOk optsPreKey rfl).2 (by decide)

def w401 : World :=
  { wOk with
    resp := fun _ => .ok { statusCode := 401, body := some (.obj [("message", .str "invalid")]) } }

def optsLoginFail : ClientOptions :=
  { BaseUrl := "", Username := "u", Password := "p", OtpSecret := "",
    OtpCode := "123456", Remember := "yes", UserAgent := "B", ApiKey := "",
    AutoAuth := false, AutoRefresh := false }

/-- C3 counterexample to the claim as stated: with an empty `OtpSecret`
but credentials and a pre-supplied one-time code, a failing initial login
(server replies 401) makes `NewClient` return that login APIError, not
the quoted Otp-secret configuration error (no client is produced either
way). -/
theorem NewClient_empty_otpSecret_cex :
    (NewClient w401 optsLoginFail).1
      = .error (.apiError (parseErrorResponse 401 (some (.obj [("message", Json.str "invalid")]))))
    ∧ ∀ (m : String) (cause : Option GoErr),
        GoErr.apiError (parseErrorResponse 401 (some (.obj [("message", Json.str "invalid")])))
          ≠ .goError m cause :=
  ⟨rfl, fun _ _ hcontra => GoErr.noConfusion hcontra⟩

/-! ### C6: response handling of the pipeline -/

/-- C6: for every dispatched request whose transport returned a response,
a status code outside 2xx makes the pipeline return exactly the APIError
produced by `parseErrorResponse` on the raw body (with no decode
attempt); a 2xx status with a nil result destination returns success
without attempting any decoding; a 2xx status with a non-nil destination
decodes the body, a decode failure yielding the `RequestError` raised at
the parsing-response step.  `Request` with `auth := false` feeds the
built wire request straight into this dispatch tail. -/
theorem Request_response_handling {α : Type} (w : World) (s : St) (req : WireRequest)
    (dec : Option (Json → Option α)) (resp : HttpResponse)
    (hresp : w.resp s.sent.length = .ok resp) :
    ((resp.statusCode < 200 ∨ 300 ≤ resp.statusCode) →
       requestDispatch w s req dec
         = (.error (.apiError (parseErrorResponse resp.statusCode resp.body)),
            { s with sent := s.sent ++ [req] }))
    ∧ (200 ≤ resp.statusCode ∧ resp.statusCode < 300 →
       (requestDispatch w s req (none : Option (Json → Option α))
          = (.ok none, { s with sent := s.sent ++ [req] }))
       ∧ (∀ d : Json → Option α,
           (∀ a, decodeBody resp.body d = some a →
              requestDispatch w s req (some d)
                = (.ok (some a),
                   { s with sent := s.sent ++ [req], decodes := s.decodes + 1 }))
           ∧ (decodeBody resp.body d = none →
              requestDispatch w s req (some d)
                = (.error (.requestError "failed to unmarshal response" "parsing response"),
                   { s with sent := s.sent ++ [req], decodes := s.decodes + 1 }))))
    ∧ (∀ (method url : String) (otpRequired : Bool) (body : Option Json),
        Request w s method url false otpRequired body dec
          = requestFinish w s (buildWireRequest method url body) otpRequired dec) := by
  refine ⟨?_, ?_, ?_⟩
  · intro hbad
    unfold requestDispatch doSend
    rw [hresp]
    simp only
    rw [if_pos hbad]
  · intro hgood
    have hnotbad : ¬(resp.statusCode < 200 ∨ 300 ≤ resp.statusCode) := by
      push_neg
      exact hgood
    constructor
    · unfold requestDispatch doSend
      rw [hresp]
      simp only
      rw [if_neg hnotbad]
    · intro d
      constructor
      · intro a ha
        unfold requestDispatch doSend
        rw [hresp]
        simp only
        rw [if_neg hnotbad, ha]
      · intro ha
        unfold requestDispatch doSend
        rw [hresp]
        simp only
        rw [if_neg hnotbad, ha]
  · intro method url otpRequired body
    rfl

theorem Request_response_handling_witness :
    requestDispatch w401 sBase (buildWireRequest "GET" "u" none)
        (none : Option (Json → Option Json))
      = (.error (.apiError (parseErrorResponse 401
            (some (.obj [("message", Json.str "invalid")])))),
         { sBase with sent := sBase.sent ++ [buildWireRequest "GET" "u" none] }) :=
  (Request_response_handling w401 sBase (buildWireRequest "GET" "u" none)
    (none : Option (Json → Option Json))
    { statusCode := 401, body := some (.obj [("message", Json.str "invalid")]) } rfl).1
    (Or.inr (by decide))

/-! ### C7: the authenticated-request pipeline -/

theorem getHeader_set_self (h : HeaderMap) (k v : String) :
    getHeader (setHeader h k v) k = some v := by
  simp [getHeader, setHeader]

theorem getHeader_set_other (h : HeaderMap) (k v q : String) (hq : q ≠ k) :
    getHeader (setHeader h k v) q = getHeader h q := by
  simp [getHeader, setHeader, hq]

theorem requestDispatch_sent {α : Type} (w : World) (s : St) (req : WireRequest)
    (dec : Option (Json → Option α)) :
    (requestDispatch w s req dec).2.sent = s.sent ++ [req] := by
  unfold requestDispatch doSend
  rcases w.resp s.sent.length with e | resp
  · rfl
  · simp only
    split
    · rfl
    · rcases dec with _ | d
      · rfl
      · simp only
        rcases decodeBody resp.body d with _ | a <;> rfl

/-- The `auth && AutoRefresh` step at the head of an authenticated
`Request` (client.go lines 661-668): run `handleAutoRefresh` when
`AutoRefresh` is enabled, otherwise do nothing. -/
def ensureStep (w : World) (s : St) : Except GoErr Unit × St :=
  if s.c.AutoRefresh then handleAutoRefresh w s else (.ok (), s)

theorem RequestTrue_ensure_error {α : Type} (w : World) (s : St) (method url : String)
    (otpRequired : Bool) (body : Option Json) (dec : Option (Json → Option α))
    (e : GoErr) (s1 : St) (hE : ensureStep w s = (.error e, s1)) :
    Request w s method url true otpRequired body dec
      = (.error (.goError "failed to refresh authentication" (some e)), s1) := by
  unfold ensureStep at hE
  unfold Request RequestWith
  rw [hE]
  rfl

theorem RequestTrue_ensure_ok {α : Type} (w : World) (s : St) (method url : String)
    (otpRequired : Bool) (body : Option Json) (dec : Option (Json → Option α))
    (s1 : St) (hE : ensureStep w s = (.ok (), s1)) :
    Request w s method url true otpRequired body dec
      = (match assertAuth s1.c with
         | .error e2 => (.error (.goError "authentication validation failed" (some e2)), s1)
         | .ok () =>
           if s1.c.UserAgent = "" then
             (.error (.goError "UserAgent is empty! please set UserAgent" none), s1)
           else
             requestFinish w s1
               { buildWireRequest method url body with
                 headers := setHeader (setHeader (buildWireRequest method url body).headers
                     "User-Agent" ("TraderBot/" ++ s1.c.UserAgent))
                   "Authorization" ("Token " ++ s1.c.ApiKey) }
               otpRequired dec) := by
  unfold ensureStep at hE
  unfold Request RequestWith
  rw [hE]
  rfl

theorem handleAutoRefresh_ua_empty (w : World) (s : St) (h : s.c.UserAgent = "") :
    (handleAutoRefresh w s).2.sent = s.sent ∧ (handleAutoRefresh w s).2.c.UserAgent = "" := by
  unfold handleAutoRefresh handleAutoRefreshTtl
  by_cases h1 : s.c.OtpSecret = ""
  · simp [h1, h]
  · rw [if_neg h1]
    have hflow : (refreshFlow w s).2.sent = s.sent ∧ (refreshFlow w s).2.c.UserAgent = "" := by
      unfold refreshFlow genOtp
      rcases w.otp s.otpCalls with e | code
      · exact ⟨rfl, h⟩
      · simp only
        obtain ⟨e2, hA⟩ := Authenticate_ua_empty w
          { s with otpCalls := s.otpCalls + 1, c := { s.c with OtpCode := code } }
          s.c.Username s.c.Password (by exact h)
        rw [hA]
        exact ⟨rfl, h⟩
    by_cases h2 : s.c.Remember = "no" ∨ s.c.Remember = ""
    · rw [if_pos h2]
      by_cases h3 : w.now - s.c.AuthTime > 4 * 3600
      · rw [if_pos h3]
        exact hflow
      · rw [if_neg h3]
        exact ⟨rfl, h⟩
    · rw [if_neg h2]
      by_cases h4 : s.c.Remember = "yes"
      · rw [if_pos h4]
        by_cases h5 : w.now - s.c.AuthTime > 30 * 24 * 3600
        · rw [if_pos h5]
          exact hflow
        · rw [if_neg h5]
          exact ⟨rfl, h⟩
      · rw [if_neg h4]
        exact ⟨rfl, h⟩

/-- C7: for every request with `auth=true` the pipeline first runs the
refresh step (`handleAutoRefresh`, when `AutoRefresh` is enabled) and the
`assertAuth` check, propagating their failures as configuration errors;
an empty configured user agent is rejected with a configuration error
before any network attempt (the dispatched-request trace is unchanged);
and when the request proceeds, the outgoing wire request carries
`Authorization: Token <session key>` and `User-Agent: TraderBot/<agent>`
for the post-refresh session. -/
theorem Request_auth_pipeline {α : Type} (w : World) (s : St) (method url : String)
    (otpRequired : Bool) (body : Option Json) (dec : Option (Json → Option α)) :
    (∀ (e : GoErr) (s1 : St), s.c.AutoRefresh = true → handleAutoRefresh w s = (.error e, s1) →
        Request w s method url true otpRequired body dec
          = (.error (.goError "failed to refresh authentication" (some e)), s1))
    ∧ (∀ s1 : St, ensureStep w s = (.ok (), s1) → s1.c.ApiKey = "" →
        Request w s method url true otpRequired body dec
          = (.error (.goError "authentication validation failed"
              (some (.goError "access token is empty" none))), s1))
    ∧ (s.c.UserAgent = "" →
        (∃ (m : String) (cause : Option GoErr),
          (Request w s method url true otpRequired body dec).1 = .error (.goError m cause))
        ∧ (Request w s method url true otpRequired body dec).2.sent = s.sent)
    ∧ (∀ s1 : St, ensureStep w s = (.ok (), s1) → s1.c.ApiKey ≠ "" → s1.c.UserAgent ≠ "" →
        ∃ req : WireRequest,
          (Request w s method url true otpRequired body dec).2.sent = s1.sent ++ [req]
          ∧ getHeader req.headers "Authorization" = some ("Token " ++ s1.c.ApiKey)
          ∧ getHeader req.headers "User-Agent" = some ("TraderBot/" ++ s1.c.UserAgent)) := by
  refine ⟨?_, ?_, ?_, ?_⟩
  · intro e s1 hAR hH
    exact RequestTrue_ensure_error w s method url otpRequired body dec e s1
      (by unfold ensureStep; rw [if_pos hAR, hH])
  · intro s1 hE hkey
    rw [RequestTrue_ensure_ok w s method url otpRequired body dec s1 hE]
    unfold assertAuth
    rw [if_pos hkey]
  · intro hua
    by_cases hAR : s.c.AutoRefresh = true
    · rcases hH : handleAutoRefresh w s with ⟨r, s1⟩
      have hP := handleAutoRefresh_ua_empty w s hua
      rw [hH] at hP
      cases r with
      | error e =>
        rw [RequestTrue_ensure_error w s method url otpRequired body dec e s1
          (by unfold ensureStep; rw [if_pos hAR, hH])]
        exact ⟨⟨_, _, rfl⟩, hP.1⟩
      | ok u =>
        rw [RequestTrue_ensure_ok w s method url otpRequired body dec s1
          (by unfold ensureStep; rw [if_pos hAR, hH])]
        unfold assertAuth
        by_cases hkey : s1.c.ApiKey = ""
        · rw [if_pos hkey]
          exact ⟨⟨_, _, rfl⟩, hP.1⟩
        · rw [if_neg hkey]
          simp only
          rw [if_pos hP.2]
          exact ⟨⟨_, _, rfl⟩, hP.1⟩
    · have hE : ensureStep w s = (.ok (), s) := by
        unfold ensureStep
        rw [if_neg hAR]
      rw [RequestTrue_ensure_ok w s method url otpRequired body dec s hE]
      unfold assertAuth
      by_cases hkey : s.c.ApiKey = ""
      · rw [if_pos hkey]
        exact ⟨⟨_, _, rfl⟩, rfl⟩
      · rw [if_neg hkey]
        simp only
        rw [if_pos hua]
        exact ⟨⟨_, _, rfl⟩, rfl⟩
  · intro s1 hE hkey hua
    rw [RequestTrue_ensure_ok w s method url otpRequired body dec s1 hE]
    unfold assertAuth
    rw [if_neg hkey]
    simp only
    rw [if_neg hua]
    rcases otpRequired with _ | _
    · refine ⟨_, requestDispatch_sent w s1 _ dec, ?_, ?_⟩
      · exact getHeader_set_self _ _ _
      · rw [getHeader_set_other _ _ _ _ (by decide)]
        exact getHeader_set_self _ _ _
    · unfold requestFinish
      rw [if_neg hua]
      refine ⟨_, requestDispatch_sent w s1 _ dec, ?_, ?_⟩
      · rw [getHeader_set_other _ _ _ _ (by decide),
          getHeader_set_other _ _ _ _ (by decide)]
        exact getHeader_set_self _ _ _
      · rw [getHeader_set_other _ _ _ _ (by decide)]
        exact getHeader_set_self _ _ _

theorem Request_auth_pipeline_witness :
    ∃ req : WireRequest,
      (Request wOk { sBase with c := { cBase with AutoRefresh := false } } "POST" "u" true false
          none (none : Option (Json → Option Json))).2.sent
        = ({ sBase with c := { cBase with AutoRefresh := false } } : St).sent ++ [req]
      ∧ getHeader req.headers "Authorization" = some ("Token " ++ "KEY1")
      ∧ getHeader req.headers "User-Agent" = some ("TraderBot/" ++ "Bot/1.0") :=
  (Request_auth_pipeline wOk { sBase with c := { cBase with AutoRefresh := false } } "POST" "u"
    false none (none : Option (Json → Option Json))).2.2.2
    { sBase with c := { cBase with AutoRefresh := false } } rfl (by decide) (by decide)

/-! ### C10: status overwrite in CancelOrder and GetOpenOrders -/

def jsonLookup (b : Option Json) (k : String) : Option Json :=
  match b with
  | some (.obj kvs) => kvs.lookup k
  | _ => none

theorem encodeCancelOrderParams_status (p : CancelOrderParams) :
    jsonLookup (some (encodeCancelOrderParams p)) "status" = some (.str p.Status) := by
  unfold encodeCancelOrderParams jsonLookup
  by_cases h1 : p.Id ≠ 0 <;> by_cases h2 : p.ClientOrderId ≠ "" <;>
    first
      | (rw [if_pos h1, if_pos h2]; rfl)
      | (rw [if_pos h1, if_neg h2]; rfl)
      | (rw [if_neg h1, if_pos h2]; rfl)
      | (rw [if_neg h1, if_neg h2]; rfl)

theorem encodeGetOrdersListParams_status (p : GetOrdersListParams) :
    jsonLookup (some (encodeGetOrdersListParams p)) "status" = some (.str p.Status) := rfl

/-- C10: `CancelOrder` overwrites `params.Status` with `canceled` before
sending and `GetOpenOrders` overwrites it with `open`: the two operations
are observationally independent of the caller-supplied `Status` (so the
original value is never sent), and the single wire request each one
dispatches carries the overwritten status — in the JSON body for the POST
cancel, and in the query string serialized from the overwritten parameter
object for the GET open-orders listing. -/
theorem cancel_open_status_override :
    (∀ (w : World) (s : St) (p : CancelOrderParams) (x : String),
        CancelOrder w s { p with Status := x } = CancelOrder w s p)
    ∧ (∀ (w : World) (s : St) (p : GetOrdersListParams) (x : String),
        GetOpenOrders w s { p with Status := x } = GetOpenOrders w s p)
    ∧ (∀ (w : World) (s : St) (p : CancelOrderParams),
        s.c.AutoRefresh = false → s.c.ApiKey ≠ "" → s.c.UserAgent ≠ "" →
        ∃ req : WireRequest,
          (CancelOrder w s p).2.sent = s.sent ++ [req]
          ∧ req.method = "POST"
          ∧ req.url = createApiURI s.c.BaseUrl "/market/orders/update-status" ""
          ∧ req.body = some (encodeCancelOrderParams { p with Status := "canceled" })
          ∧ jsonLookup req.body "status" = some (.str "canceled"))
    ∧ (∀ (w : World) (s : St) (p : GetOrdersListParams),
        s.c.AutoRefresh = false → s.c.ApiKey ≠ "" → s.c.UserAgent ≠ "" →
        ∃ req : WireRequest,
          (GetOpenOrders w s p).2.sent = s.sent ++ [req]
          ∧ req.method = "GET"
          ∧ req.url = createApiURI s.c.BaseUrl "/market/orders/list" "" ++ "?"
              ++ structToURLParams (encodeGetOrdersListParams { p with Status := "open" })
          ∧ req.body = none
          ∧ jsonLookup (some (encodeGetOrdersListParams { p with Status := "open" })) "status"
              = some (.str "open")) := by
  refine ⟨?_, ?_, ?_, ?_⟩
  · intro w s p x
    rfl
  · intro w s p x
    rfl
  · intro w s p hAR hkey hua
    have hE : ensureStep w s = (.ok (), s) := by
      unfold ensureStep
      rw [if_neg (by simp [hAR])]
    unfold CancelOrder ApiRequest
    rw [RequestTrue_ensure_ok w s "POST" (createApiURI s.c.BaseUrl "/market/orders/update-status" "")
      false (some (encodeCancelOrderParams { p with Status := "canceled" }))
      (some decodeRaw) s hE]
    unfold assertAuth
    rw [if_neg hkey]
    simp only
    rw [if_neg hua]
    refine ⟨_, requestDispatch_sent w s _ (some decodeRaw), rfl, rfl, rfl, ?_⟩
    exact encodeCancelOrderParams_status { p with Status := "canceled" }
  · intro w s p hAR hkey hua
    have hE : ensureStep w s = (.ok (), s) := by
      unfold ensureStep
      rw [if_neg (by simp [hAR])]
    unfold GetOpenOrders ApiRequest
    rw [RequestTrue_ensure_ok w s "GET" (createApiURI s.c.BaseUrl "/market/orders/list" "")
      false (some (encodeGetOrdersListParams { p with Status := "open" }))
      (some decodeRaw) s hE]
    unfold assertAuth
    rw [if_neg hkey]
    simp only
    rw [if_neg hua]
    exact ⟨_, requestDispatch_sent w s _ (some decodeRaw), rfl, rfl, rfl, rfl⟩

theorem cancel_open_status_override_witness :
    ∃ req : WireRequest,
      (CancelOrder wOk { sBase with c := { cBase with AutoRefresh := false } }
          { Id := 7, ClientOrderId := "", Status := "open" }).2.sent
        = ({ sBase with c := { cBase with AutoRefresh := false } } : St).sent ++ [req]
      ∧ req.method = "POST"
      ∧ req.url = createApiURI cBase.BaseUrl "/market/orders/update-status" ""
      ∧ req.body = some (encodeCancelOrderParams
          { Id := 7, ClientOrderId := "", Status := "canceled" })
      ∧ jsonLookup req.body "status" = some (.str "canceled") :=
  cancel_open_status_override.2.2.1 wOk
    { sBase with c := { cBase with AutoRefresh := false } }
    { Id := 7, ClientOrderId := "", Status := "open" } rfl (by decide) (by decide)
